import Mathlib

/-!
Shallow embedding of the two programs of this repository:
`produser-service/cmd/main.go` (the producer) and
`consumer-service/cmd/main.go` (the consumer).

Each Go `main` is embedded as a pure function from an *environment* — the
outcomes the external NATS client library returns for the fallible calls the
program makes (`nats.Connect`, `nc.Publish`, `nc.Subscribe`) — to the trace of
externally visible actions the program performs together with how the process
terminates.  `log.Fatal` prints its argument and calls `os.Exit(1)`, which
skips pending `defer`s; `select {}` blocks forever.  Payloads are represented
as Lean `String`s standing for their UTF-8 bytes (`[]byte("Hello, NATS!")`).
-/

namespace NATSDemo

/-- A NATS message: a subject name and a byte payload (UTF-8 string). -/
structure Msg where
  subject : String
  data : String
deriving DecidableEq, Repr

/-- Externally visible actions either process can perform. -/
inductive Event where
  /-- A `nats.Connect(url)` call. -/
  | connect (url : String)
  /-- A `nc.Publish(subject, payload)` call. -/
  | publish (subject : String) (payload : String)
  /-- A `nc.Flush()` call (waiting for broker acknowledgment); present in the
  event alphabet so its absence from every trace is expressible, since the
  repository's code never calls it. -/
  | flush
  /-- A `nc.Subscribe(subject, callback)` call. -/
  | subscribe (subject : String)
  /-- A `msg.Respond(payload)` reply from inside a callback; in the alphabet
  only so that its absence is expressible. -/
  | respond (payload : String)
  /-- `nc.Close()` (the producer's deferred close). -/
  | close
  /-- The printing half of a `log.Fatal(err)` call. -/
  | logFatal (err : String)
  /-- A `log.Println` or `log.Printf` line. -/
  | logPrint (line : String)
deriving DecidableEq, Repr

/-- How a run of a process ends. -/
inductive Termination where
  /-- `main` returns normally: process exit status 0. -/
  | exitZero
  /-- `log.Fatal` was reached: `os.Exit(1)`, a non-zero status, with pending
  `defer`s skipped. -/
  | exitNonZero
  /-- The process blocks forever (`select {}`) and can only be ended by an
  external signal. -/
  | blocked
deriving DecidableEq, Repr

/-- The `nats.DefaultURL` constant of the nats.go client library, the
well-known local default broker address. -/
def natsDefaultURL : String := "nats://127.0.0.1:4222"

/-- The fixed subject string shared by both programs. -/
def updatesSubject : String := "updates"

/-- The producer's fixed payload, `[]byte("Hello, NATS!")`. -/
def helloPayload : String := "Hello, NATS!"

/-- Outcomes the NATS library returns to the producer's two fallible calls:
`none` means success, `some e` means the call returned error `e`. -/
structure ProducerEnv where
  connectErr : Option String
  publishErr : Option String
deriving DecidableEq, Repr

/-- Outcomes the NATS library returns to the consumer's two fallible calls. -/
structure ConsumerEnv where
  connectErr : Option String
  subscribeErr : Option String
deriving DecidableEq, Repr

/-- Embedding of `produser-service/cmd/main.go`:
`nats.Connect(nats.DefaultURL)`; on error `log.Fatal(err)`; `defer nc.Close()`;
`nc.Publish("updates", []byte("Hello, NATS!"))`; on error `log.Fatal(err)`
(which exits before the deferred close); otherwise `log.Println` a success
line, return, and run the deferred `nc.Close()`. -/
def producerRun (env : ProducerEnv) : List Event × Termination :=
  match env.connectErr with
  | some e => ([Event.connect natsDefaultURL, Event.logFatal e], Termination.exitNonZero)
  | none =>
    match env.publishErr with
    | some e =>
      ([Event.connect natsDefaultURL,
        Event.publish updatesSubject helloPayload,
        Event.logFatal e], Termination.exitNonZero)
    | none =>
      ([Event.connect natsDefaultURL,
        Event.publish updatesSubject helloPayload,
        Event.logPrint "Сообщение отправлено",
        Event.close], Termination.exitZero)

/-- Embedding of the consumer's subscription callback
`func(msg *nats.Msg) { log.Printf("Получено сообщение: %s", string(msg.Data)) }`:
its body performs exactly one action, a log line containing the payload. -/
def consumerCallback (msg : Msg) : List Event :=
  [Event.logPrint ("Получено сообщение: " ++ msg.data)]

/-- Embedding of `consumer-service/cmd/main.go`:
`nats.Connect(nats.DefaultURL)`; on error `log.Fatal(err)`; `defer nc.Close()`;
`nc.Subscribe("updates", callback)`; on error `log.Fatal(err)`; then
`select {}` blocks forever. -/
def consumerRun (env : ConsumerEnv) : List Event × Termination :=
  match env.connectErr with
  | some e => ([Event.connect natsDefaultURL, Event.logFatal e], Termination.exitNonZero)
  | none =>
    match env.subscribeErr with
    | some e =>
      ([Event.connect natsDefaultURL,
        Event.subscribe updatesSubject,
        Event.logFatal e], Termination.exitNonZero)
    | none =>
      ([Event.connect natsDefaultURL,
        Event.subscribe updatesSubject], Termination.blocked)

/-- The publish calls issued in a trace, as messages. -/
def publishedMsgs (tr : List Event) : List Msg :=
  tr.filterMap fun e =>
    match e with
    | Event.publish s p => some (Msg.mk s p)
    | _ => none

/-- The subjects of the subscription registrations issued in a trace. -/
def subscribedSubjects (tr : List Event) : List String :=
  tr.filterMap fun e =>
    match e with
    | Event.subscribe s => some s
    | _ => none

/-- The URLs of the connection attempts issued in a trace. -/
def connectTargets (tr : List Event) : List String :=
  tr.filterMap fun e =>
    match e with
    | Event.connect u => some u
    | _ => none

/-- An active callback subscription held at the broker, identified by its
subject. -/
structure Subscription where
  subject : String
deriving DecidableEq, Repr

/-- Modelled from the spec: the broker — "the external message-routing server
(not part of this repository) that both processes connect to" — routes one
published message to the active callback subscriptions whose subject matches,
producing one callback invocation (subscription paired with the delivered
payload) per matching subscription. -/
def deliver (subs : List Subscription) (m : Msg) : List (Subscription × String) :=
  (subs.filter fun s => s.subject == m.subject).map fun s => (s, m.data)

/-- Modelled from the spec: the callback invocations produced by delivering a
sequence of published messages to a fixed set of active subscriptions that was
registered before all of the publishes. -/
def deliverAll (subs : List Subscription) (ms : List Msg) : List (Subscription × String) :=
  ms.flatMap (deliver subs)

/-- C1: in every run of the producer whose broker connection succeeds, the
producer issues exactly one publish, whose subject is the literal `"updates"`
and whose payload is the fixed byte string `"Hello, NATS!"`, and no other
publish. -/
theorem producer_publishes_single_update (env : ProducerEnv)
    (h : env.connectErr = none) :
    publishedMsgs (producerRun env).1 = [Msg.mk updatesSubject helloPayload] := by
  rcases hp : env.publishErr with _ | e <;>
    simp [producerRun, h, hp, publishedMsgs]

/-- Witness for C1 at the all-success environment. -/
theorem producer_publishes_single_update_witness :
    publishedMsgs (producerRun ⟨none, none⟩).1 = [Msg.mk updatesSubject helloPayload] :=
  producer_publishes_single_update ⟨none, none⟩ rfl

/-- C2: with a reachable broker, the producer's successful publish of
`"Hello, NATS!"` on `"updates"`, delivered against an active subscription on
`"updates"` registered before the publish, produces exactly one callback
invocation carrying exactly that payload, and the consumer's callback on that
message logs that payload. -/
theorem publish_reaches_prior_subscription_once (env : ProducerEnv)
    (h1 : env.connectErr = none) (h2 : env.publishErr = none) :
    deliverAll [Subscription.mk updatesSubject] (publishedMsgs (producerRun env).1) =
      [(Subscription.mk updatesSubject, helloPayload)] ∧
    consumerCallback (Msg.mk updatesSubject helloPayload) =
      [Event.logPrint ("Получено сообщение: " ++ helloPayload)] := by
  refine ⟨?_, rfl⟩
  simp [producerRun, h1, h2, publishedMsgs, deliverAll, deliver,
    updatesSubject, helloPayload]

/-- Witness for C2 at the all-success environment. -/
theorem publish_reaches_prior_subscription_once_witness :
    deliverAll [Subscription.mk updatesSubject]
        (publishedMsgs (producerRun ⟨none, none⟩).1) =
      [(Subscription.mk updatesSubject, helloPayload)] ∧
    consumerCallback (Msg.mk updatesSubject helloPayload) =
      [Event.logPrint ("Получено сообщение: " ++ helloPayload)] :=
  publish_reaches_prior_subscription_once ⟨none, none⟩ rfl rfl

/-- C3: whenever the initial connection fails, each process logs the error and
exits with non-zero status; the producer issues no publish and the consumer
registers no subscription. -/
theorem connect_failure_aborts_both (penv : ProducerEnv) (cenv : ConsumerEnv)
    (e f : String) (hp : penv.connectErr = some e) (hc : cenv.connectErr = some f) :
    (producerRun penv).1 = [Event.connect natsDefaultURL, Event.logFatal e] ∧
    (producerRun penv).2 = Termination.exitNonZero ∧
    publishedMsgs (producerRun penv).1 = [] ∧
    (consumerRun cenv).1 = [Event.connect natsDefaultURL, Event.logFatal f] ∧
    (consumerRun cenv).2 = Termination.exitNonZero ∧
    subscribedSubjects (consumerRun cenv).1 = [] := by
  simp [producerRun, consumerRun, hp, hc, publishedMsgs, subscribedSubjects]

/-- Witness for C3 at concretely failing connections. -/
theorem connect_failure_aborts_both_witness :
    (producerRun ⟨some "dial refused", none⟩).1 =
      [Event.connect natsDefaultURL, Event.logFatal "dial refused"] ∧
    (producerRun ⟨some "dial refused", none⟩).2 = Termination.exitNonZero ∧
    publishedMsgs (producerRun ⟨some "dial refused", none⟩).1 = [] ∧
    (consumerRun ⟨some "dial refused", none⟩).1 =
      [Event.connect natsDefaultURL, Event.logFatal "dial refused"] ∧
    (consumerRun ⟨some "dial refused", none⟩).2 = Termination.exitNonZero ∧
    subscribedSubjects (consumerRun ⟨some "dial refused", none⟩).1 = [] :=
  connect_failure_aborts_both ⟨some "dial refused", none⟩ ⟨some "dial refused", none⟩
    "dial refused" "dial refused" rfl rfl

/-- C4: when connect and publish both succeed, the producer runs its deferred
close, terminates with status zero, is not blocked, and never waits for the
publish to be acknowledged (no flush call in its trace). -/
theorem producer_success_closes_and_exits_zero (env : ProducerEnv)
    (h1 : env.connectErr = none) (h2 : env.publishErr = none) :
    Event.close ∈ (producerRun env).1 ∧
    (producerRun env).2 = Termination.exitZero ∧
    (producerRun env).2 ≠ Termination.blocked ∧
    Event.flush ∉ (producerRun env).1 := by
  simp [producerRun, h1, h2]

/-- Witness for C4 at the all-success environment. -/
theorem producer_success_closes_and_exits_zero_witness :
    Event.close ∈ (producerRun ⟨none, none⟩).1 ∧
    (producerRun ⟨none, none⟩).2 = Termination.exitZero ∧
    (producerRun ⟨none, none⟩).2 ≠ Termination.blocked ∧
    Event.flush ∉ (producerRun ⟨none, none⟩).1 :=
  producer_success_closes_and_exits_zero ⟨none, none⟩ rfl rfl

/-- C5: when the consumer's connection succeeds it registers a subscription on
`"updates"`; every inbound message on that subject yields one callback
invocation with that message's payload; and the callback body handles a
message by logging only — its action list is exactly one log line and contains
nothing but log lines. -/
theorem consumer_registers_logging_callback (env : ConsumerEnv)
    (h : env.connectErr = none) (m : Msg) :
    Event.subscribe updatesSubject ∈ (consumerRun env).1 ∧
    (m.subject = updatesSubject →
      deliver [Subscription.mk updatesSubject] m =
        [(Subscription.mk updatesSubject, m.data)]) ∧
    consumerCallback m = [Event.logPrint ("Получено сообщение: " ++ m.data)] ∧
    ∀ ev ∈ consumerCallback m, ∃ line, ev = Event.logPrint line := by
  refine ⟨?_, ?_, rfl, ?_⟩
  · rcases hs : env.subscribeErr with _ | e <;> simp [consumerRun, h, hs]
  · intro hm
    simp [deliver, hm]
  · intro ev hev
    simp [consumerCallback] at hev
    exact ⟨_, hev⟩

/-- Witness for C5 at the all-success environment and the producer's message. -/
theorem consumer_registers_logging_callback_witness :
    Event.subscribe updatesSubject ∈ (consumerRun ⟨none, none⟩).1 ∧
    ((Msg.mk updatesSubject helloPayload).subject = updatesSubject →
      deliver [Subscription.mk updatesSubject] (Msg.mk updatesSubject helloPayload) =
        [(Subscription.mk updatesSubject, (Msg.mk updatesSubject helloPayload).data)]) ∧
    consumerCallback (Msg.mk updatesSubject helloPayload) =
      [Event.logPrint ("Получено сообщение: " ++ (Msg.mk updatesSubject helloPayload).data)] ∧
    ∀ ev ∈ consumerCallback (Msg.mk updatesSubject helloPayload),
      ∃ line, ev = Event.logPrint line :=
  consumer_registers_logging_callback ⟨none, none⟩ rfl (Msg.mk updatesSubject helloPayload)

/-- C6: when connection and subscription registration both succeed, the
consumer's main flow blocks forever (`select {}`) and can only be ended by an
external signal. -/
theorem consumer_success_blocks_forever (env : ConsumerEnv)
    (h1 : env.connectErr = none) (h2 : env.subscribeErr = none) :
    (consumerRun env).2 = Termination.blocked := by
  simp [consumerRun, h1, h2]

/-- Witness for C6 at the all-success environment. -/
theorem consumer_success_blocks_forever_witness :
    (consumerRun ⟨none, none⟩).2 = Termination.blocked :=
  consumer_success_blocks_forever ⟨none, none⟩ rfl rfl

/-- C7: when connect succeeds but the publish returns an error, the producer's
trace is exactly connect, one publish attempt, then the fatal log of the
error; it exits non-zero and issues exactly one publish call (no retry). -/
theorem producer_publish_failure_fatal (env : ProducerEnv) (e : String)
    (h1 : env.connectErr = none) (h2 : env.publishErr = some e) :
    (producerRun env).1 =
      [Event.connect natsDefaultURL, Event.publish updatesSubject helloPayload,
       Event.logFatal e] ∧
    (producerRun env).2 = Termination.exitNonZero ∧
    (publishedMsgs (producerRun env).1).length = 1 := by
  simp [producerRun, h1, h2, publishedMsgs]

/-- Witness for C7 at a concrete publish error. -/
theorem producer_publish_failure_fatal_witness :
    (producerRun ⟨none, some "connection closed"⟩).1 =
      [Event.connect natsDefaultURL, Event.publish updatesSubject helloPayload,
       Event.logFatal "connection closed"] ∧
    (producerRun ⟨none, some "connection closed"⟩).2 = Termination.exitNonZero ∧
    (publishedMsgs (producerRun ⟨none, some "connection closed"⟩).1).length = 1 :=
  producer_publish_failure_fatal ⟨none, some "connection closed"⟩ "connection closed" rfl rfl

/-- C8: in every run of either process, every publish call has subject
`"updates"`, the consumer publishes nothing, every subscription registration is
on `"updates"`, and the broker delivers to the one subscription only messages
whose subject is `"updates"`. -/
theorem only_updates_subject (penv : ProducerEnv) (cenv : ConsumerEnv) :
    (∀ m ∈ publishedMsgs (producerRun penv).1, m.subject = updatesSubject) ∧
    publishedMsgs (consumerRun cenv).1 = [] ∧
    (∀ s ∈ subscribedSubjects (consumerRun cenv).1, s = updatesSubject) ∧
    (∀ m : Msg, ∀ x ∈ deliver [Subscription.mk updatesSubject] m,
      m.subject = updatesSubject) := by
  refine ⟨?_, ?_, ?_, ?_⟩
  · rcases hp : penv.connectErr with _ | e
    · rcases hq : penv.publishErr with _ | e <;>
        simp [producerRun, hp, hq, publishedMsgs]
    · simp [producerRun, hp, publishedMsgs]
  · rcases hc : cenv.connectErr with _ | e
    · rcases hs : cenv.subscribeErr with _ | e <;>
        simp [consumerRun, hc, hs, publishedMsgs]
    · simp [consumerRun, hc, publishedMsgs]
  · rcases hc : cenv.connectErr with _ | e
    · rcases hs : cenv.subscribeErr with _ | e <;>
        simp [consumerRun, hc, hs, subscribedSubjects]
    · simp [consumerRun, hc, subscribedSubjects]
  · intro m x hx
    simp [deliver] at hx
    obtain ⟨a, ⟨ha, hsub⟩, _⟩ := hx
    subst ha
    exact hsub.symm

/-- Witness for C8: the producer's one publish in the all-success run has
subject "updates". -/
theorem only_updates_subject_witness :
    (Msg.mk updatesSubject helloPayload).subject = updatesSubject :=
  (only_updates_subject ⟨none, none⟩ ⟨none, none⟩).1
    (Msg.mk updatesSubject helloPayload) (by decide)

/-- C9: in every run, both processes direct their single connection attempt at
the client library's default local URL `nats://127.0.0.1:4222`; the target is
the same for both and fixed — the runs depend on nothing but the library's
call outcomes, with no flag, environment or configuration input. -/
theorem fixed_default_broker_target (penv : ProducerEnv) (cenv : ConsumerEnv) :
    connectTargets (producerRun penv).1 = [natsDefaultURL] ∧
    connectTargets (consumerRun cenv).1 = [natsDefaultURL] ∧
    natsDefaultURL = "nats://127.0.0.1:4222" := by
  refine ⟨?_, ?_, rfl⟩
  · rcases hp : penv.connectErr with _ | e
    · rcases hq : penv.publishErr with _ | e <;>
        simp [producerRun, hp, hq, connectTargets]
    · simp [producerRun, hp, connectTargets]
  · rcases hc : cenv.connectErr with _ | e
    · rcases hs : cenv.subscribeErr with _ | e <;>
        simp [consumerRun, hc, hs, connectTargets]
    · simp [consumerRun, hc, connectTargets]

/-- Witness for C9 at the all-success environments. -/
theorem fixed_default_broker_target_witness :
    connectTargets (producerRun ⟨none, none⟩).1 = [natsDefaultURL] ∧
    connectTargets (consumerRun ⟨none, none⟩).1 = [natsDefaultURL] ∧
    natsDefaultURL = "nats://127.0.0.1:4222" :=
  fixed_default_broker_target ⟨none, none⟩ ⟨none, none⟩

/-- C10: when the publish fails, `log.Fatal` exits before the deferred close
runs: the trace contains no close and ends in the fatal log, the exit status is
non-zero, and across all runs the close happens exactly when connect and
publish both succeed. -/
theorem publish_failure_skips_deferred_close (env : ProducerEnv) (e : String)
    (h1 : env.connectErr = none) (h2 : env.publishErr = some e) :
    Event.close ∉ (producerRun env).1 ∧
    (producerRun env).1.getLast? = some (Event.logFatal e) ∧
    (producerRun env).2 = Termination.exitNonZero ∧
    (∀ env2 : ProducerEnv, Event.close ∈ (producerRun env2).1 ↔
      env2.connectErr = none ∧ env2.publishErr = none) := by
  refine ⟨?_, ?_, ?_, ?_⟩
  · simp [producerRun, h1, h2]
  · simp [producerRun, h1, h2]
  · simp [producerRun, h1, h2]
  · intro env2
    rcases hp : env2.connectErr with _ | a
    · rcases hq : env2.publishErr with _ | b <;>
        simp [producerRun, hp, hq]
    · simp [producerRun, hp]

/-- Witness for C10 at a concrete publish error. -/
theorem publish_failure_skips_deferred_close_witness :
    Event.close ∉ (producerRun ⟨none, some "connection lost"⟩).1 ∧
    (producerRun ⟨none, some "connection lost"⟩).1.getLast? =
      some (Event.logFatal "connection lost") ∧
    (producerRun ⟨none, some "connection lost"⟩).2 = Termination.exitNonZero ∧
    (∀ env2 : ProducerEnv, Event.close ∈ (producerRun env2).1 ↔
      env2.connectErr = none ∧ env2.publishErr = none) :=
  publish_failure_skips_deferred_close ⟨none, some "connection lost"⟩
    "connection lost" rfl rfl

end NATSDemo
